import Mathlib

/-!
# Verification of the debtdrone-cli complexity core

Shallow embedding of the complexity-analysis core of `debtdrone-cli`
(Go). Strings whose byte length matters (function bodies, code
snippets) are modelled as `List Char`; the inputs considered are ASCII,
where Go's byte-level operations agree with the character-level ones.
Go `int` values are modelled as `Int` (no overflow occurs in the ranges
involved); Go's truncated integer division is `Int.tdiv`. `float64`
division is modelled as exact division in `ℚ`.

Sources embedded (file, function):
 * `cmd/debtdrone/main.go`: `shouldFail`;
 * `internal/analysis/analyzers/complexity/common.go`:
   `classifyComplexitySeverity`, `truncateSnippet`,
   `calculatePatternBasedNesting`;
 * `internal/models` (complexity model file): `ComplexityThresholds`,
   `DefaultComplexityThresholds`, `DetermineSeverity`,
   `CalculateTechnicalDebt`;
 * `internal/analysis/analyzers/complexity/factory.go` (pattern-based
   Swift analyzer): the per-function metric pipeline of `AnalyzeFile`
   and `estimateSwiftTechnicalDebt`;
 * the Go language analyzer (`go/ast` based): `AnalyzeFile`,
   `analyzeFunction`, `calculateCyclomaticComplexity`,
   `calculateCognitiveComplexity`, `calculateNestingDepth`,
   `countParameters`, `extractReceiverType`, `extractCodeSnippet`;
 * `internal/analysis/analyzers/line_counter.go`: `Analyze`,
   `isCodeFile`;
 * the complexity repository walker (`analyzers` package): the
   directory-pruning rules and `convertToIssues`.
-/

namespace DebtDrone

/-! ## Data model

`models.ComplexityMetric` and `models.TechnicalDebtIssue`, restricted to
the fields the verified claims mention.  Line numbers are 1-based. -/

structure ComplexityMetric where
  filePath : String
  functionName : String
  startLine : Nat
  endLine : Nat
  cyclomatic : Int
  cognitive : Int
  nestingDepth : Int
  parameterCount : Int
  linesOfCode : Int
  severity : String
  technicalDebtMinutes : Int
  codeSnippet : List Char
  deriving Repr, DecidableEq

structure TechnicalDebtIssue where
  filePath : String
  lineNumber : Nat
  issueType : String
  severity : String
  category : String
  toolName : String
  technicalDebtHours : ℚ
  codeSnippet : List Char
  deriving Repr, DecidableEq

/-! ## Quality gate — `shouldFail` (cmd/debtdrone/main.go) -/

/-- The `severityMap` of `shouldFail`: `map[string]int{info:0, low:1,
medium:2, high:3, critical:4}`.  A lookup of a string outside the map
fails (`ok == false`), modelled by `none`. -/
def severityRank (s : String) : Option Int :=
  if s = "info" then some 0
  else if s = "low" then some 1
  else if s = "medium" then some 2
  else if s = "high" then some 3
  else if s = "critical" then some 4
  else none

/-- `shouldFail(issues, threshold)`: returns `false` immediately when the
threshold is `"none"`; otherwise looks the threshold up in the severity
map, defaulting to 3 on a missed lookup, and returns `true` iff some
issue's severity is in the map with a rank at least the threshold's. -/
def shouldFail (issues : List TechnicalDebtIssue) (threshold : String) : Bool :=
  if threshold = "none" then false
  else
    let thresholdVal := (severityRank threshold).getD 3
    issues.any fun issue =>
      match severityRank issue.severity with
      | some val => thresholdVal ≤ val
      | none => false

/-! ## Severity classification -/

/-- `classifyComplexitySeverity` from
`internal/analysis/analyzers/complexity/common.go`, used by every
pattern-based / tree-sitter language analyzer. -/
def classifyComplexitySeverity (cyclomatic cognitive nesting : Int) : String :=
  if 20 < cyclomatic ∨ 25 < cognitive ∨ 5 < nesting then "critical"
  else if 15 < cyclomatic ∨ 20 < cognitive ∨ 4 < nesting then "high"
  else if 10 < cyclomatic ∨ 15 < cognitive ∨ 3 < nesting then "medium"
  else "low"

/-- The severity cascade exactly as §4.1 of the specification words it:
critical if `C > 20` or `K > 25` or `N > 5`; else high if `C > 15` or
`K > 20` or `N > 4`; else medium if `C > 10` or `K > 15` or `N > 3`;
else low.  Stated from the spec, for comparison with the source
functions. -/
def specSeverityCascade (c k n : Int) : String :=
  if 20 < c ∨ 25 < k ∨ 5 < n then "critical"
  else if 15 < c ∨ 20 < k ∨ 4 < n then "high"
  else if 10 < c ∨ 15 < k ∨ 3 < n then "medium"
  else "low"

/-- `models.ComplexityThresholds`. -/
structure ComplexityThresholds where
  cyclomaticHigh : Int
  cyclomaticCritical : Int
  cognitiveHigh : Int
  cognitiveCritical : Int
  nestingWarning : Int
  nestingCritical : Int
  parameterWarning : Int
  parameterCritical : Int
  linesOfCodeWarning : Int
  linesOfCodeCritical : Int
  deriving Repr, DecidableEq

/-- `models.DefaultComplexityThresholds()`. -/
def DefaultComplexityThresholds : ComplexityThresholds :=
  { cyclomaticHigh := 10
    cyclomaticCritical := 20
    cognitiveHigh := 15
    cognitiveCritical := 25
    nestingWarning := 4
    nestingCritical := 6
    parameterWarning := 5
    parameterCritical := 7
    linesOfCodeWarning := 150
    linesOfCodeCritical := 300 }

/-- `(t ComplexityThresholds) DetermineSeverity` from the models package:
the severity rule used by the Go language analyzer.  Note the `+1`
offsets on the nesting cutoffs and that the parameter count takes part
(unlike in `classifyComplexitySeverity`).  Go integer division
`CyclomaticHigh/2` and `CognitiveHigh/2` is `Int.tdiv`. -/
def ComplexityThresholds.DetermineSeverity (t : ComplexityThresholds)
    (cyclomatic cognitive nesting params : Int) : String :=
  if t.cyclomaticCritical < cyclomatic ∨ t.nestingCritical + 1 < nesting ∨
      t.cognitiveCritical < cognitive then "critical"
  else if t.cyclomaticHigh < cyclomatic ∨ t.nestingWarning + 1 < nesting ∨
      t.parameterCritical < params ∨ t.cognitiveHigh < cognitive then "high"
  else if Int.tdiv t.cyclomaticHigh 2 < cyclomatic ∨ t.nestingWarning < nesting ∨
      t.parameterWarning < params ∨ Int.tdiv t.cognitiveHigh 2 < cognitive then "medium"
  else "low"

/-! ## Technical-debt estimates -/

/-- `models.CalculateTechnicalDebt`: the estimate used by the Go
language analyzer.  All Go divisions here have non-negative numerators
(they sit under a guard), so `Int.tdiv` is used faithfully. -/
def CalculateTechnicalDebt (cyclomatic cognitive nesting params loc : Int) : Int :=
  let d1 : Int :=
    if 20 < cyclomatic then (cyclomatic - 20) * 15
    else if 10 < cyclomatic then (cyclomatic - 10) * 10
    else if 5 < cyclomatic then (cyclomatic - 5) * 5
    else 0
  let d2 : Int := if 15 < cognitive then (cognitive - 15) * 8 else 0
  let d3 : Int :=
    if 5 < nesting then (nesting - 5) * 20
    else if 3 < nesting then (nesting - 3) * 10
    else 0
  let d4 : Int :=
    if 7 < params then (params - 7) * 15
    else if 5 < params then (params - 5) * 10
    else 0
  let d5 : Int :=
    if 300 < loc then (Int.tdiv (loc - 300) 50) * 30
    else if 150 < loc then (Int.tdiv (loc - 150) 50) * 15
    else 0
  let debtMinutes := d1 + d2 + d3 + d4 + d5
  if debtMinutes < 0 then 0 else debtMinutes

/-- `estimateSwiftTechnicalDebt` from the pattern-based Swift analyzer
(also present verbatim in the tree-sitter Swift analyzer): a base of 5
minutes plus clamped add-ons.  `(loc - 30) / 5` is Go truncated
division, clamped to 0 afterwards. -/
def estimateSwiftTechnicalDebt (cyclomatic cognitive loc : Int) : Int :=
  let baseMinutes : Int := 5
  let complexityMinutes := (cyclomatic - 10) * 2
  let complexityMinutes := if complexityMinutes < 0 then 0 else complexityMinutes
  let cognitiveMinutes := (cognitive - 15) * 1
  let cognitiveMinutes := if cognitiveMinutes < 0 then 0 else cognitiveMinutes
  let locMinutes := Int.tdiv (loc - 30) 5
  let locMinutes := if locMinutes < 0 then 0 else locMinutes
  baseMinutes + complexityMinutes + cognitiveMinutes + locMinutes

/-! ## Snippet and scan utilities (common.go) -/

/-- `truncateSnippet(code, maxLen)`: the input unchanged when it fits,
else its first `maxLen` bytes followed by `"..."`. -/
def truncateSnippet (code : List Char) (maxLen : Nat) : List Char :=
  if code.length ≤ maxLen then code
  else code.take maxLen ++ ['.', '.', '.']

/-- `strings.Count(s, "\n")`. -/
def countNewlines (s : List Char) : Nat := s.count '\n'

/-- The character scan inside `calculatePatternBasedNesting`: the running
depth (a Go `int`, possibly negative on unbalanced braces) and the
maximum seen so far. -/
def nestingScan : List Char → Int → Int → Int
  | [], _, maxDepth => maxDepth
  | c :: rest, currentDepth, maxDepth =>
    if c = '{' then
      let currentDepth := currentDepth + 1
      nestingScan rest currentDepth
        (if maxDepth < currentDepth then currentDepth else maxDepth)
    else if c = '}' then nestingScan rest (currentDepth - 1) maxDepth
    else nestingScan rest currentDepth maxDepth

/-- `calculatePatternBasedNesting(code)`: maximum brace depth reached,
starting from 0. -/
def calculatePatternBasedNesting (code : List Char) : Int :=
  nestingScan code 0 0

/-! ## The pattern-based Swift analyzer's per-function pipeline

The loop body of `SwiftAnalyzer.AnalyzeFile` over one discovered
`functionInfo`.  The regex engine is the one piece outside the
embedding: the per-pattern match counts of `calculateSwiftCyclomatic`
and `calculateSwiftCognitive` (`len(re.FindAllString(code, -1))`,
always natural numbers) enter as oracle inputs; everything downstream
of them is computed exactly. -/

/-- `functionInfo` from common.go (the fields the pipeline reads). -/
structure FunctionInfo where
  name : String
  line : Nat
  body : List Char
  paramCount : Int
  deriving Repr, DecidableEq

/-- The regex match counts feeding `calculateSwiftCyclomatic` (one count
per pattern in its pattern list) and the six match-count groups of
`calculateSwiftCognitive`. -/
structure SwiftMatchCounts where
  cyclomaticCounts : List Nat
  nestingKeywords : Nat
  logicalOps : Nat
  switchCases : Nat
  guardCount : Nat
  optionalHandling : Nat
  closuresAsync : Nat
  deriving Repr, DecidableEq

/-- `calculateSwiftCyclomatic`: 1 plus one increment per regex match. -/
def calculateSwiftCyclomatic (m : SwiftMatchCounts) : Int :=
  1 + (m.cyclomaticCounts.sum : Int)

/-- `calculateSwiftCognitive`: nesting keywords count double, logical
operators, switch cases, guards and optional-handling operators count
once, closure/async markers count double. -/
def calculateSwiftCognitive (m : SwiftMatchCounts) : Int :=
  (m.nestingKeywords : Int) * 2 + m.logicalOps + m.switchCases +
    m.guardCount + m.optionalHandling + (m.closuresAsync : Int) * 2

/-- The metric built for one `functionInfo` by the pattern-based
`SwiftAnalyzer.AnalyzeFile` loop: nesting from the brace scan, lines of
code as newline count plus one, severity from
`classifyComplexitySeverity`, debt from `estimateSwiftTechnicalDebt`,
snippet truncated at 300 bytes, `EndLine = fn.line + newlines`. -/
def swiftAnalyzeFunction (filePath : String) (fn : FunctionInfo)
    (m : SwiftMatchCounts) : ComplexityMetric :=
  let cyclomatic := calculateSwiftCyclomatic m
  let cognitive := calculateSwiftCognitive m
  let nesting := calculatePatternBasedNesting fn.body
  let loc : Int := (countNewlines fn.body : Int) + 1
  { filePath := filePath
    functionName := fn.name
    startLine := fn.line
    endLine := fn.line + countNewlines fn.body
    cyclomatic := cyclomatic
    cognitive := cognitive
    nestingDepth := nesting
    parameterCount := fn.paramCount
    linesOfCode := loc
    severity := classifyComplexitySeverity cyclomatic cognitive nesting
    technicalDebtMinutes := estimateSwiftTechnicalDebt cyclomatic cognitive loc
    codeSnippet := truncateSnippet fn.body 300 }

/-! ## Metric-to-issue converter (`convertToIssues`, analyzers package) -/

/-- The issue record built from one kept metric (the fields the claims
mention; `TechnicalDebtHours = float64(minutes) / 60.0`, modelled as
exact division in `ℚ`). -/
def metricToIssue (m : ComplexityMetric) : TechnicalDebtIssue :=
  { filePath := m.filePath
    lineNumber := m.startLine
    issueType := "complexity"
    severity := m.severity
    category := "maintainability"
    toolName := "complexity_analyzer"
    technicalDebtHours := (m.technicalDebtMinutes : ℚ) / 60
    codeSnippet := m.codeSnippet }

/-- `convertToIssues`: the loop skips (`continue`) every metric whose
severity is neither `"high"` nor `"critical"` and appends one issue for
each remaining metric. -/
def convertToIssues (metrics : List ComplexityMetric) : List TechnicalDebtIssue :=
  metrics.foldr
    (fun metric issues =>
      if metric.severity ≠ "high" ∧ metric.severity ≠ "critical" then issues
      else metricToIssue metric :: issues)
    []

/-! ## Repository walking and the line counter

`filepath.Walk` with `filepath.SkipDir`: a file is reached exactly when
none of the directories on the path from the repository root to it made
the callback return `SkipDir`.  A repository is modelled as a list of
files, each carrying the names of its ancestor directories in order. -/

structure RepoFile where
  dirs : List String
  name : String
  content : List Char
  deriving Repr, DecidableEq

/-- The directory names pruned by the complexity analyzer's walk
(`.git`, `node_modules`, `vendor`, `.venv`, `venv`, `__pycache__`). -/
def complexityPrunedDirs : List String :=
  [".git", "node_modules", "vendor", ".venv", "venv", "__pycache__"]

/-- A file is reached by the complexity analyzer's walk iff no ancestor
directory name is in the pruned set. -/
def complexityWalkReaches (f : RepoFile) : Bool :=
  f.dirs.all fun d => ¬ complexityPrunedDirs.contains d

/-- A file is reached by the line counter's walk iff no ancestor
directory is named `.git` — the only `SkipDir` case in
`LineCounter.Analyze`. -/
def lineCounterWalkReaches (f : RepoFile) : Bool :=
  f.dirs.all fun d => d ≠ ".git"

/-- `filepath.Ext` followed by `strings.ToLower`: the lowercased suffix
of the file name starting at its final dot, empty when the name has no
dot. -/
def extOf (name : String) : String :=
  let cs := name.toList
  let afterLastDot := (cs.reverse.takeWhile fun c => c ≠ '.').reverse
  if afterLastDot.length = cs.length then ""
  else String.mk (('.' :: afterLastDot).map Char.toLower)

/-- `isCodeFile` from line_counter.go: the fixed extension whitelist. -/
def isCodeFile (ext : String) : Bool :=
  ext = ".go" ∨ ext = ".js" ∨ ext = ".ts" ∨ ext = ".tsx" ∨ ext = ".jsx" ∨
    ext = ".py" ∨ ext = ".java" ∨ ext = ".cs" ∨ ext = ".c" ∨ ext = ".cpp" ∨
    ext = ".h" ∨ ext = ".rb" ∨ ext = ".php"

/-- One file's contribution to the line counter's `loc` metric: its
newline count, when the file is reached by the walk and its extension is
whitelisted; otherwise nothing. -/
def lineCounterLocOf (f : RepoFile) : Nat :=
  if lineCounterWalkReaches f ∧ isCodeFile (extOf f.name) then countNewlines f.content
  else 0

/-- One file's contribution to the line counter's `file_count` metric. -/
def lineCounterFileCountOf (f : RepoFile) : Nat :=
  if lineCounterWalkReaches f ∧ isCodeFile (extOf f.name) then 1 else 0

/-- `LineCounter.Analyze`: total newline count and file count over the
repository walk. -/
def lineCounterTotals (files : List RepoFile) : Nat × Nat :=
  ((files.map lineCounterLocOf).sum, (files.map lineCounterFileCountOf).sum)

/-! ## The Go language analyzer (`go/ast` based)

The parser (`go/parser.ParseFile`) is outside the embedding; the
analyzer is modelled on the parser's output.  `GoExpr`/`GoStmt` mirror
the `ast.Expr`/`ast.Stmt` constructors the analyzer's `switch` arms
name, with a catch-all for every other node kind (which contributes to
no count). -/

/-- Binary operator tags: `token.LAND`, `token.LOR`, anything else. -/
inductive GoBinOp where
  | land
  | lor
  | other
  deriving Repr, DecidableEq

mutual
inductive GoExpr where
  | ident (name : String)
  | star (x : GoExpr)
  | unary (x : GoExpr)
  | paren (x : GoExpr)
  | selector (x : GoExpr) (sel : String)
  | binary (op : GoBinOp) (l r : GoExpr)
  | call (f : GoExpr) (args : List GoExpr)
  | funcLit (body : List GoStmt)
  | basicLit (v : String)

inductive GoStmt where
  | ifStmt (init : Option GoStmt) (cond : GoExpr) (body : List GoStmt) (els : Option GoStmt)
  | forStmt (init : Option GoStmt) (cond : Option GoExpr) (post : Option GoStmt)
      (body : List GoStmt)
  | rangeStmt (x : GoExpr) (body : List GoStmt)
  | switchStmt (init : Option GoStmt) (tag : Option GoExpr) (cases : List GoStmt)
  | typeSwitchStmt (init : Option GoStmt) (assign : GoStmt) (cases : List GoStmt)
  | selectStmt (cases : List GoStmt)
  | caseClause (exprs : List GoExpr) (body : List GoStmt)
  | commClause (body : List GoStmt)
  | blockStmt (body : List GoStmt)
  | exprStmt (x : GoExpr)
  | assignStmt (lhs rhs : List GoExpr)
  | returnStmt (results : List GoExpr)
  | otherStmt
end

/-! `calculateCyclomaticComplexity`'s `ast.Inspect` visits every node of
the body subtree; the contributions are: `IfStmt`, `ForStmt`,
`RangeStmt`, `CaseClause`, `CommClause` each `+1`, and `BinaryExpr`
`+1` when its operator is `&&` or `||`. -/

mutual
def exprCyclo : GoExpr → Nat
  | .ident _ => 0
  | .star x => exprCyclo x
  | .unary x => exprCyclo x
  | .paren x => exprCyclo x
  | .selector x _ => exprCyclo x
  | .binary op l r =>
    (match op with | .land => 1 | .lor => 1 | .other => 0) + exprCyclo l + exprCyclo r
  | .call f args => exprCyclo f + exprListCyclo args
  | .funcLit body => stmtListCyclo body
  | .basicLit _ => 0

def exprListCyclo : List GoExpr → Nat
  | [] => 0
  | e :: es => exprCyclo e + exprListCyclo es

def optExprCyclo : Option GoExpr → Nat
  | none => 0
  | some e => exprCyclo e

def stmtCyclo : GoStmt → Nat
  | .ifStmt i c body els =>
    1 + optStmtCyclo i + exprCyclo c + stmtListCyclo body + optStmtCyclo els
  | .forStmt i c p body =>
    1 + optStmtCyclo i + optExprCyclo c + optStmtCyclo p + stmtListCyclo body
  | .rangeStmt x body => 1 + exprCyclo x + stmtListCyclo body
  | .switchStmt i t cases => optStmtCyclo i + optExprCyclo t + stmtListCyclo cases
  | .typeSwitchStmt i a cases => optStmtCyclo i + stmtCyclo a + stmtListCyclo cases
  | .selectStmt cases => stmtListCyclo cases
  | .caseClause exprs body => 1 + exprListCyclo exprs + stmtListCyclo body
  | .commClause body => 1 + stmtListCyclo body
  | .blockStmt body => stmtListCyclo body
  | .exprStmt x => exprCyclo x
  | .assignStmt lhs rhs => exprListCyclo lhs + exprListCyclo rhs
  | .returnStmt results => exprListCyclo results
  | .otherStmt => 0

def optStmtCyclo : Option GoStmt → Nat
  | none => 0
  | some s => stmtCyclo s

def stmtListCyclo : List GoStmt → Nat
  | [] => 0
  | s :: ss => stmtCyclo s + stmtListCyclo ss
end

/-- `calculateCyclomaticComplexity`: starts at 1. -/
def goCalculateCyclomaticComplexity (body : List GoStmt) : Nat :=
  1 + stmtListCyclo body

/-! `calculateCognitiveComplexity` visits the same subtree; the
contributions are: `IfStmt` `+1` (plus `+1` when it has an `else`),
`ForStmt`, `RangeStmt`, `SwitchStmt`, `TypeSwitchStmt`, `SelectStmt`
each `+1`, and `&&`/`||` `+1`.  Case clauses contribute nothing. -/

mutual
def exprCog : GoExpr → Nat
  | .ident _ => 0
  | .star x => exprCog x
  | .unary x => exprCog x
  | .paren x => exprCog x
  | .selector x _ => exprCog x
  | .binary op l r =>
    (match op with | .land => 1 | .lor => 1 | .other => 0) + exprCog l + exprCog r
  | .call f args => exprCog f + exprListCog args
  | .funcLit body => stmtListCog body
  | .basicLit _ => 0

def exprListCog : List GoExpr → Nat
  | [] => 0
  | e :: es => exprCog e + exprListCog es

def optExprCog : Option GoExpr → Nat
  | none => 0
  | some e => exprCog e

def stmtCog : GoStmt → Nat
  | .ifStmt i c body els =>
    1 + (match els with | some _ => 1 | none => 0) +
      optStmtCog i + exprCog c + stmtListCog body + optStmtCog els
  | .forStmt i c p body =>
    1 + optStmtCog i + optExprCog c + optStmtCog p + stmtListCog body
  | .rangeStmt x body => 1 + exprCog x + stmtListCog body
  | .switchStmt i t cases => 1 + optStmtCog i + optExprCog t + stmtListCog cases
  | .typeSwitchStmt i a cases => 1 + optStmtCog i + stmtCog a + stmtListCog cases
  | .selectStmt cases => 1 + stmtListCog cases
  | .caseClause exprs body => exprListCog exprs + stmtListCog body
  | .commClause body => stmtListCog body
  | .blockStmt body => stmtListCog body
  | .exprStmt x => exprCog x
  | .assignStmt lhs rhs => exprListCog lhs + exprListCog rhs
  | .returnStmt results => exprListCog results
  | .otherStmt => 0

def optStmtCog : Option GoStmt → Nat
  | none => 0
  | some s => stmtCog s

def stmtListCog : List GoStmt → Nat
  | [] => 0
  | s :: ss => stmtCog s + stmtListCog ss
end

/-- `calculateCognitiveComplexity`: starts at 0. -/
def goCalculateCognitiveComplexity (body : List GoStmt) : Nat :=
  stmtListCog body

/-! `calculateNestingDepth`'s `measureDepth` records the current depth at
every node it reaches.  It descends into the statement lists of `if`
(body and else, one level deeper), loops, `switch`/`select` bodies (one
level deeper) and blocks (same level); for every other node kind its
default arm starts an `ast.Inspect` whose callback returns `false` on
the node itself, so nothing below it is visited. -/

mutual
def stmtDepth : GoStmt → Nat → Nat
  | .ifStmt _ _ body els, d =>
    max d (max (stmtListDepth body (d + 1))
      (match els with | some e => stmtDepth e (d + 1) | none => 0))
  | .forStmt _ _ _ body, d => max d (stmtListDepth body (d + 1))
  | .rangeStmt _ body, d => max d (stmtListDepth body (d + 1))
  | .switchStmt _ _ cases, d => max d (stmtListDepth cases (d + 1))
  | .typeSwitchStmt _ _ cases, d => max d (stmtListDepth cases (d + 1))
  | .selectStmt cases, d => max d (stmtListDepth cases (d + 1))
  | .blockStmt body, d => max d (stmtListDepth body d)
  | .caseClause _ _, d => d
  | .commClause _, d => d
  | .exprStmt _, d => d
  | .assignStmt _ _, d => d
  | .returnStmt _, d => d
  | .otherStmt, d => d

def stmtListDepth : List GoStmt → Nat → Nat
  | [], _ => 0
  | s :: ss, d => max (stmtDepth s d) (stmtListDepth ss d)
end

/-- `calculateNestingDepth`: maximum over the body's statements, each
measured from depth 0 (0 for an empty body). -/
def goCalculateNestingDepth (body : List GoStmt) : Nat :=
  stmtListDepth body 0

/-- One parameter field of a Go parameter list: `a, b int` is one field
with two names; an unnamed field (`func(int)`) has no names. -/
structure GoField where
  names : List String
  deriving Repr, DecidableEq

/-- `countParameters`: sum of name counts over the fields, an unnamed
field counting as one. -/
def goCountParameters (params : List GoField) : Nat :=
  params.foldr (fun field acc => (if field.names.isEmpty then 1 else field.names.length) + acc) 0

/-- `extractReceiverType`: strips stars, keeps identifiers, anything
else is `"unknown"`. -/
def extractReceiverType : GoExpr → String
  | .star x => "*" ++ extractReceiverType x
  | .ident n => n
  | _ => "unknown"

/-- A `*ast.FuncDecl` as the analyzer reads it: receiver type (when the
declaration has a receiver), name, parameter fields, body (absent for a
bodiless declaration), and the 1-based start/end lines of the node's
source positions. -/
structure GoFuncDecl where
  recv : Option GoExpr
  name : String
  params : List GoField
  body : Option (List GoStmt)
  startLine : Nat
  endLine : Nat

/-- A parsed Go file: its function declarations, in source order (the
only nodes `AnalyzeFile`'s `ast.Inspect` callback acts on). -/
structure GoFile where
  decls : List GoFuncDecl

/-- `extractCodeSnippet`: re-reads the file's lines, returns `""` on an
out-of-range position, else the function's lines — truncated to the
first 20 with a `"... (truncated)"` line appended when the function is
longer — joined by newlines. -/
def goExtractCodeSnippet (fileLines : List (List Char)) (startLine endLine : Nat) : List Char :=
  if startLine = 0 ∨ fileLines.length < endLine then []
  else
    let funcLines := (fileLines.drop (startLine - 1)).take (endLine - (startLine - 1))
    let funcLines :=
      if 20 < funcLines.length then funcLines.take 20 ++ ["... (truncated)".toList]
      else funcLines
    List.intercalate ['\n'] funcLines

/-- `GoAnalyzer.analyzeFunction`: skips bodiless declarations, prefixes
the receiver type to the name, computes the metrics, and classifies
severity with `thresholds.DetermineSeverity` and debt with
`models.CalculateTechnicalDebt` — not with the common cascade and the
pattern analyzers' estimator. -/
def goAnalyzeFunction (t : ComplexityThresholds) (fileLines : List (List Char))
    (filePath : String) (fn : GoFuncDecl) : Option ComplexityMetric :=
  match fn.body with
  | none => none
  | some body =>
    let funcName :=
      match fn.recv with
      | some recvType => "(" ++ extractReceiverType recvType ++ ")." ++ fn.name
      | none => fn.name
    let cyclomatic : Int := (goCalculateCyclomaticComplexity body : Nat)
    let cognitive : Int := (goCalculateCognitiveComplexity body : Nat)
    let nesting : Int := (goCalculateNestingDepth body : Nat)
    let paramCount : Int := (goCountParameters fn.params : Nat)
    let loc : Int := (fn.endLine : Int) - (fn.startLine : Int) + 1
    some
      { filePath := filePath
        functionName := funcName
        startLine := fn.startLine
        endLine := fn.endLine
        cyclomatic := cyclomatic
        cognitive := cognitive
        nestingDepth := nesting
        parameterCount := paramCount
        linesOfCode := loc
        severity := t.DetermineSeverity cyclomatic cognitive nesting paramCount
        technicalDebtMinutes := CalculateTechnicalDebt cyclomatic cognitive nesting paramCount loc
        codeSnippet := goExtractCodeSnippet fileLines fn.startLine fn.endLine }

/-- `GoAnalyzer.AnalyzeFile`: a parse failure is wrapped with
`fmt.Errorf("failed to parse Go file: %w", err)` and returned as an
error; on success every function declaration with a body yields one
metric. -/
def goAnalyzeFile (t : ComplexityThresholds) (fileLines : List (List Char))
    (filePath : String) (parsed : Except String GoFile) :
    Except String (List ComplexityMetric) :=
  match parsed with
  | .error msg => .error ("failed to parse Go file: " ++ msg)
  | .ok file => .ok (file.decls.filterMap (goAnalyzeFunction t fileLines filePath))

/-- The per-file accumulation of the complexity walker
(`ComplexityAnalyzer.Analyze`): a file whose `AnalyzeFile` call returns
an error is logged and skipped (the walk callback returns `nil`), so it
contributes no metrics and later files are unaffected. -/
def collectWalkMetrics (results : List (Except String (List ComplexityMetric))) :
    List ComplexityMetric :=
  results.foldr
    (fun r acc => (match r with | .error _ => [] | .ok ms => ms) ++ acc) []

/-! ## The JavaScript analyzer's per-function pipeline

The loop body of `JavaScriptAnalyzer.AnalyzeFile` over one discovered
function (javascript_analyzer.go; the TypeScript, Python and Java
analyzers build their metric literals the same way).  The tree-sitter
walks of `calculateJSCyclomatic`, `calculateJSCognitive` and
`calculateJSNesting` are outside the embedding; their node counts and
the nesting maximum (all natural numbers) enter as oracle inputs.  The
metric literal sets `StartLine`, `EndLine`, the three complexities,
`ParameterCount`, `Severity` and `CodeSnippet` — and neither
`LinesOfCode` nor `TechnicalDebtMinutes`, which therefore keep Go's
zero value 0. -/

/-- The tree-sitter `functionInfo` of the JavaScript analyzer: name,
1-based start and end lines of the function node, body text, parameter
count. -/
structure JsFunctionInfo where
  name : String
  line : Nat
  endLine : Nat
  body : List Char
  paramCount : Int
  deriving Repr, DecidableEq

/-- The walk-derived counts feeding the JavaScript metric functions:
branching statement nodes (`if`/loops/`switch_case`/`catch_clause` —
`+1` cyclomatic, `+2` cognitive each), `ternary_expression` nodes
(`+1`/`+1`), `binary_expression` nodes with a `&&`, `||` or `??` child
(`+1`/`+1`), and `calculateJSNesting`'s maximum depth. -/
structure JsWalkCounts where
  branchingStatements : Nat
  ternaries : Nat
  logicalBinaries : Nat
  maxNesting : Nat
  deriving Repr, DecidableEq

/-- `calculateJSCyclomatic`: starts at 1. -/
def calculateJSCyclomatic (w : JsWalkCounts) : Int :=
  1 + (w.branchingStatements : Int) + w.ternaries + w.logicalBinaries

/-- `calculateJSCognitive`: starts at 0, branching statements weigh 2. -/
def calculateJSCognitive (w : JsWalkCounts) : Int :=
  (w.branchingStatements : Int) * 2 + w.ternaries + w.logicalBinaries

/-- The metric built for one function by `JavaScriptAnalyzer.AnalyzeFile`:
severity from `classifyComplexitySeverity`, snippet truncated at 300
bytes, lines from the discovered node — with `LinesOfCode` and
`TechnicalDebtMinutes` left unset in the struct literal (Go zero
value 0). -/
def jsAnalyzeFunction (filePath : String) (fn : JsFunctionInfo)
    (w : JsWalkCounts) : ComplexityMetric :=
  let cyclomatic := calculateJSCyclomatic w
  let cognitive := calculateJSCognitive w
  let nesting : Int := (w.maxNesting : Nat)
  { filePath := filePath
    functionName := fn.name
    startLine := fn.line
    endLine := fn.endLine
    cyclomatic := cyclomatic
    cognitive := cognitive
    nestingDepth := nesting
    parameterCount := fn.paramCount
    linesOfCode := 0
    severity := classifyComplexitySeverity cyclomatic cognitive nesting
    technicalDebtMinutes := 0
    codeSnippet := truncateSnippet fn.body 300 }

/-! ## Concrete inputs used by the witnesses and counterexamples -/

/-- The §8 S3 function, as `go/parser` hands it to the analyzer:
`func (s *Server) Handle(req *Request) error` with body
`if req == nil { return nil }; return nil`, occupying lines 3-6 of its
file.  `req == nil` is a `BinaryExpr` whose operator is neither `&&`
nor `||`. -/
def s3HandleDecl : GoFuncDecl :=
  { recv := some (.star (.ident "Server"))
    name := "Handle"
    params := [{ names := ["req"] }]
    body := some
      [.ifStmt none (.binary .other (.ident "req") (.ident "nil"))
        [.returnStmt [.ident "nil"]] none,
       .returnStmt [.ident "nil"]]
    startLine := 3
    endLine := 6 }

/-- The 6 lines of the S3 file. -/
def s3FileLines : List (List Char) :=
  ["package main".toList, "".toList,
   "func (s *Server) Handle(req *Request) error \x7b".toList,
   "\tif req == nil \x7b return nil \x7d".toList,
   "\treturn nil".toList,
   "\x7d".toList]

/-- A Go function with eight parameters and an empty body:
`func configure(a, b, c, d, e, f, g, h int) {}` on one line. -/
def eightParamDecl : GoFuncDecl :=
  { recv := none
    name := "configure"
    params := [{ names := ["a", "b", "c", "d", "e", "f", "g", "h"] }]
    body := some []
    startLine := 1
    endLine := 1 }

/-- A trivial two-parameter Go function spanning three lines:
`func add(a, b int) int` returning a sum. -/
def addDecl : GoFuncDecl :=
  { recv := none
    name := "add"
    params := [{ names := ["a", "b"] }]
    body := some [.returnStmt [.binary .other (.ident "a") (.ident "b")]]
    startLine := 1
    endLine := 3 }

/-- A one-line Go function whose single source line is 400 bytes long. -/
def longLineDecl : GoFuncDecl :=
  { recv := none
    name := "longLine"
    params := []
    body := some [.otherStmt]
    startLine := 1
    endLine := 1 }

/-- The 400-byte source line of `longLineDecl`. -/
def longLineFile : List (List Char) := [List.replicate 400 'b']

/-- A 301-byte Swift function body containing one newline. -/
def longSwiftFn : FunctionInfo :=
  { name := "longBody"
    line := 1
    body := '\n' :: List.replicate 300 'a'
    paramCount := 0 }

/-- Zero regex matches for every pattern group. -/
def noMatches : SwiftMatchCounts :=
  { cyclomaticCounts := []
    nestingKeywords := 0
    logicalOps := 0
    switchCases := 0
    guardCount := 0
    optionalHandling := 0
    closuresAsync := 0 }

/-- A three-line JavaScript function `function add(a, b)` spanning
lines 1-3, as the JavaScript analyzer's function discovery reports it. -/
def jsAddFn : JsFunctionInfo :=
  { name := "add"
    line := 1
    endLine := 3
    body := "function add(a, b) \x7b\n  return a + b;\n\x7d".toList
    paramCount := 2 }

/-- Zero tree-sitter walk counts: a branch-free function body. -/
def jsZeroCounts : JsWalkCounts :=
  { branchingStatements := 0, ternaries := 0, logicalBinaries := 0, maxNesting := 0 }

/-- A whitelisted JavaScript file below `node_modules`. -/
def nmFile : RepoFile :=
  { dirs := ["node_modules", "big"], name := "index.js", content := ['x', '\n'] }

/-- A Go file below `.git`. -/
def dotGitFile : RepoFile :=
  { dirs := [".git"], name := "config.go", content := ['x', '\n'] }

/-- The metric produced by the Go analyzer on `eightParamDecl`. -/
def eightParamMetric : ComplexityMetric :=
  { filePath := "util.go"
    functionName := "configure"
    startLine := 1
    endLine := 1
    cyclomatic := 1
    cognitive := 0
    nestingDepth := 0
    parameterCount := 8
    linesOfCode := 1
    severity := "high"
    technicalDebtMinutes := 15
    codeSnippet := [] }

/-- The metric produced by the Go analyzer on `s3HandleDecl`. -/
def s3HandleMetric : ComplexityMetric :=
  { filePath := "server.go"
    functionName := "(*Server).Handle"
    startLine := 3
    endLine := 6
    cyclomatic := 2
    cognitive := 1
    nestingDepth := 1
    parameterCount := 1
    linesOfCode := 4
    severity := "low"
    technicalDebtMinutes := 0
    codeSnippet :=
      ("func (s *Server) Handle(req *Request) error \x7b\n\tif req == nil \x7b return nil \x7d\n\treturn nil\n\x7d").toList }

/-- The metric produced by the Go analyzer on `longLineDecl`. -/
def longLineMetric : ComplexityMetric :=
  { filePath := "big.go"
    functionName := "longLine"
    startLine := 1
    endLine := 1
    cyclomatic := 1
    cognitive := 0
    nestingDepth := 0
    parameterCount := 0
    linesOfCode := 1
    severity := "low"
    technicalDebtMinutes := 0
    codeSnippet := List.replicate 400 'b' }

/-! ## Helper lemmas -/

/-- The Go clamp `if x < 0 { x = 0 }` is `max 0 x`. -/
theorem ifNegZero_eq_max (x : Int) : (if x < 0 then 0 else x) = max 0 x := by
  rcases lt_or_le x 0 with h | h
  · simp [h, max_eq_left h.le]
  · simp [not_lt.mpr h, max_eq_right h]

/-- Truncated division of a non-positive integer by 5 is non-positive. -/
theorem tdiv_five_nonpos {a : Int} (h : a ≤ 0) : Int.tdiv a 5 ≤ 0 := by
  have h1 : (0 : Int) ≤ -a := by omega
  have h2 : (0 : Int) ≤ Int.tdiv (-a) 5 := Int.tdiv_nonneg h1 (by norm_num)
  rw [Int.neg_tdiv] at h2
  omega

/-- The clamped truncated division `max 0 (a.tdiv 5)` is monotone in the
numerator. -/
theorem max_tdiv_five_mono {a b : Int} (h : a ≤ b) :
    max 0 (Int.tdiv a 5) ≤ max 0 (Int.tdiv b 5) := by
  rcases le_or_lt 0 a with ha | ha
  · have hb : (0 : Int) ≤ b := le_trans ha h
    rw [Int.tdiv_eq_ediv ha (by norm_num), Int.tdiv_eq_ediv hb (by norm_num)]
    exact max_le_max le_rfl (Int.ediv_le_ediv (by norm_num) h)
  · have h0 : Int.tdiv a 5 ≤ 0 := tdiv_five_nonpos ha.le
    calc max 0 (Int.tdiv a 5) = 0 := max_eq_left h0
    _ ≤ max 0 (Int.tdiv b 5) := le_max_left _ _

/-- `estimateSwiftTechnicalDebt` in clamp-free form. -/
theorem estimateSwiftTechnicalDebt_eq (c k l : Int) :
    estimateSwiftTechnicalDebt c k l =
      5 + max 0 ((c - 10) * 2) + max 0 ((k - 15) * 1) + max 0 (Int.tdiv (l - 30) 5) := by
  simp only [estimateSwiftTechnicalDebt]
  rw [ifNegZero_eq_max, ifNegZero_eq_max, ifNegZero_eq_max]

/-- `collectWalkMetrics` distributes over list append. -/
theorem collectWalkMetrics_append (l1 l2 : List (Except String (List ComplexityMetric))) :
    collectWalkMetrics (l1 ++ l2) = collectWalkMetrics l1 ++ collectWalkMetrics l2 := by
  induction l1 with
  | nil => rfl
  | cons r rs ih =>
    simp only [List.cons_append, collectWalkMetrics, List.foldr_cons] at ih ⊢
    rw [ih, List.append_assoc]

/-- A file the line counter's walk does not reach contributes no lines. -/
theorem lineCounterLocOf_not_reached {f : RepoFile}
    (h : lineCounterWalkReaches f = false) : lineCounterLocOf f = 0 := by
  simp [lineCounterLocOf, h]

/-- A file the line counter's walk does not reach is not counted. -/
theorem lineCounterFileCountOf_not_reached {f : RepoFile}
    (h : lineCounterWalkReaches f = false) : lineCounterFileCountOf f = 0 := by
  simp [lineCounterFileCountOf, h]

/-- The line counter's `loc` total is unchanged by restricting to the
files its walk reaches. -/
theorem sumLoc_filter_reached (files : List RepoFile) :
    (files.map lineCounterLocOf).sum =
      ((files.filter lineCounterWalkReaches).map lineCounterLocOf).sum := by
  induction files with
  | nil => rfl
  | cons f fs ih =>
    cases hr : lineCounterWalkReaches f
    · simp [List.filter_cons, hr, lineCounterLocOf_not_reached hr, ih]
    · simp [List.filter_cons, hr, ih]

/-- The line counter's `file_count` total is unchanged by restricting to
the files its walk reaches. -/
theorem sumFileCount_filter_reached (files : List RepoFile) :
    (files.map lineCounterFileCountOf).sum =
      ((files.filter lineCounterWalkReaches).map lineCounterFileCountOf).sum := by
  induction files with
  | nil => rfl
  | cons f fs ih =>
    cases hr : lineCounterWalkReaches f
    · simp [List.filter_cons, hr, lineCounterFileCountOf_not_reached hr, ih]
    · simp [List.filter_cons, hr, ih]

/-! # Claim theorems -/

/-- Claim C1, counterexample.  A Go function with eight parameters, a
single-branch-free body and trivial complexity is assigned severity
`"high"` by the Go analyzer, while the §4.1 cascade applied to its
cyclomatic, cognitive and nesting values yields `"low"`: the emitted
severity differs from the cascade, and parameter count alone drove it. -/
theorem claim1_go_severity_counterexample :
    (goAnalyzeFunction DefaultComplexityThresholds [] "util.go" eightParamDecl).map
        (fun m => (m.severity, specSeverityCascade m.cyclomatic m.cognitive m.nestingDepth)) =
      some ("high", "low") := by
  decide

/-- Claim C1, amended.  The common `classifyComplexitySeverity` used by
the pattern-based and tree-sitter analyzers equals the §4.1 cascade, and
every metric of the pattern-based Swift pipeline carries the cascade of
its (C, K, N); the Go analyzer instead assigns
`thresholds.DetermineSeverity(C, K, N, P)`, in which parameter count
takes part. -/
theorem claim1_severity_rules :
    (∀ c k n, classifyComplexitySeverity c k n = specSeverityCascade c k n) ∧
    (∀ fp fn mc, (swiftAnalyzeFunction fp fn mc).severity =
      specSeverityCascade (swiftAnalyzeFunction fp fn mc).cyclomatic
        (swiftAnalyzeFunction fp fn mc).cognitive
        (swiftAnalyzeFunction fp fn mc).nestingDepth) ∧
    (∀ t fileLines fp fn m, goAnalyzeFunction t fileLines fp fn = some m →
      m.severity =
        t.DetermineSeverity m.cyclomatic m.cognitive m.nestingDepth m.parameterCount) := by
  refine ⟨fun c k n => rfl, fun fp fn mc => rfl, ?_⟩
  intro t fileLines fp fn m h
  cases hb : fn.body with
  | none => simp [goAnalyzeFunction, hb] at h
  | some body =>
    simp only [goAnalyzeFunction, hb, Option.some.injEq] at h
    subst h
    rfl

/-- Claim C1, witness for the amended theorem at `eightParamDecl`. -/
theorem claim1_severity_rules_witness :
    goAnalyzeFunction DefaultComplexityThresholds [] "util.go" eightParamDecl =
        some eightParamMetric ∧
      eightParamMetric.severity =
        DefaultComplexityThresholds.DetermineSeverity eightParamMetric.cyclomatic
          eightParamMetric.cognitive eightParamMetric.nestingDepth
          eightParamMetric.parameterCount :=
  ⟨by decide,
   claim1_severity_rules.2.2 DefaultComplexityThresholds [] "util.go" eightParamDecl
     eightParamMetric (by decide)⟩

/-- Claim C2: `shouldFail` returns fail iff the threshold is not
`"none"` and some issue's severity is one of the five ranked strings
with rank at least the threshold's rank (an unknown threshold ranking
as 3); with threshold `"none"` the gate always passes. -/
theorem claim2_gate_iff :
    (∀ (issues : List TechnicalDebtIssue) (threshold : String),
      shouldFail issues threshold = true ↔
        threshold ≠ "none" ∧ ∃ issue ∈ issues, ∃ r,
          severityRank issue.severity = some r ∧ (severityRank threshold).getD 3 ≤ r) ∧
    (∀ issues, shouldFail issues "none" = false) := by
  constructor
  · intro issues threshold
    by_cases h : threshold = "none"
    · subst h
      simp [shouldFail]
    · simp only [shouldFail, if_neg h, List.any_eq_true]
      constructor
      · rintro ⟨issue, hmem, hval⟩
        refine ⟨h, issue, hmem, ?_⟩
        cases hsr : severityRank issue.severity with
        | none => simp [hsr] at hval
        | some v =>
          refine ⟨v, rfl, ?_⟩
          simpa [hsr] using hval
      · rintro ⟨-, issue, hmem, r, hsr, hle⟩
        refine ⟨issue, hmem, ?_⟩
        simp [hsr, hle]
  · intro issues
    simp [shouldFail]

/-- Claim C3, counterexample.  The Go analyzer emits a metric with 0
debt minutes (below the claimed floor of 5), and
`models.CalculateTechnicalDebt` is not monotone: it drops from 100 to
15 minutes when cyclomatic goes from 20 to 21, and from 45 to 0 when
lines of code go from 300 to 301. -/
theorem claim3_debt_counterexample :
    (goAnalyzeFunction DefaultComplexityThresholds [] "add.go" addDecl).map
        (fun m => m.technicalDebtMinutes) = some 0 ∧
      CalculateTechnicalDebt 21 0 0 0 1 < CalculateTechnicalDebt 20 0 0 0 1 ∧
      CalculateTechnicalDebt 1 0 0 0 301 < CalculateTechnicalDebt 1 0 0 0 300 := by
  refine ⟨by decide, by decide, by decide⟩

/-- Claim C3, amended.  The pattern-based analyzers' estimator
(`estimateSwiftTechnicalDebt`) is at least 5 and monotone
non-decreasing in each of cyclomatic, cognitive and lines of code, and
every Swift-pipeline metric carries at least 5 debt minutes; the Go
analyzer's `models.CalculateTechnicalDebt` guarantees only
non-negativity. -/
theorem claim3_debt_properties :
    (∀ c k l, 5 ≤ estimateSwiftTechnicalDebt c k l) ∧
    (∀ fp fn mc, 5 ≤ (swiftAnalyzeFunction fp fn mc).technicalDebtMinutes) ∧
    (∀ c1 c2 k l, c1 ≤ c2 →
      estimateSwiftTechnicalDebt c1 k l ≤ estimateSwiftTechnicalDebt c2 k l) ∧
    (∀ c k1 k2 l, k1 ≤ k2 →
      estimateSwiftTechnicalDebt c k1 l ≤ estimateSwiftTechnicalDebt c k2 l) ∧
    (∀ c k l1 l2, l1 ≤ l2 →
      estimateSwiftTechnicalDebt c k l1 ≤ estimateSwiftTechnicalDebt c k l2) ∧
    (∀ c k n p l, 0 ≤ CalculateTechnicalDebt c k n p l) := by
  have base : ∀ c k l, 5 ≤ estimateSwiftTechnicalDebt c k l := by
    intro c k l
    rw [estimateSwiftTechnicalDebt_eq]
    have h1 : (0 : Int) ≤ max 0 ((c - 10) * 2) := le_max_left _ _
    have h2 : (0 : Int) ≤ max 0 ((k - 15) * 1) := le_max_left _ _
    have h3 : (0 : Int) ≤ max 0 (Int.tdiv (l - 30) 5) := le_max_left _ _
    linarith
  refine ⟨base, fun fp fn mc => base _ _ _, ?_, ?_, ?_, ?_⟩
  · intro c1 c2 k l h
    rw [estimateSwiftTechnicalDebt_eq, estimateSwiftTechnicalDebt_eq]
    have : max 0 ((c1 - 10) * 2) ≤ max 0 ((c2 - 10) * 2) :=
      max_le_max le_rfl (by omega)
    linarith
  · intro c k1 k2 l h
    rw [estimateSwiftTechnicalDebt_eq, estimateSwiftTechnicalDebt_eq]
    have : max 0 ((k1 - 15) * 1) ≤ max 0 ((k2 - 15) * 1) :=
      max_le_max le_rfl (by omega)
    linarith
  · intro c k l1 l2 h
    rw [estimateSwiftTechnicalDebt_eq, estimateSwiftTechnicalDebt_eq]
    have : max 0 (Int.tdiv (l1 - 30) 5) ≤ max 0 (Int.tdiv (l2 - 30) 5) :=
      max_tdiv_five_mono (by omega)
    linarith
  · intro c k n p l
    have hmax : ∀ x : Int, 0 ≤ if x < 0 then 0 else x := fun x => by
      rw [ifNegZero_eq_max]; exact le_max_left _ _
    simp only [CalculateTechnicalDebt]
    exact hmax _

/-- Claim C3, witness for the amended theorem's monotonicity
hypotheses at concrete inputs. -/
theorem claim3_debt_properties_witness :
    estimateSwiftTechnicalDebt 11 16 31 ≤ estimateSwiftTechnicalDebt 13 16 31 ∧
      estimateSwiftTechnicalDebt 11 16 31 ≤ estimateSwiftTechnicalDebt 11 18 31 ∧
      estimateSwiftTechnicalDebt 11 16 31 ≤ estimateSwiftTechnicalDebt 11 16 36 :=
  ⟨claim3_debt_properties.2.2.1 11 13 16 31 (by norm_num),
   claim3_debt_properties.2.2.2.1 11 16 18 31 (by norm_num),
   claim3_debt_properties.2.2.2.2.1 11 16 31 36 (by norm_num)⟩

/-- Claim C4: `convertToIssues` keeps exactly the metrics whose severity
is `"high"` or `"critical"`, emitting one issue per kept metric in
order, and every issue's line number is the metric's start line and its
debt hours are the metric's debt minutes divided by 60. -/
theorem claim4_convert_to_issues :
    (∀ metrics, convertToIssues metrics =
        (metrics.filter fun m =>
          decide (m.severity = "high") || decide (m.severity = "critical")).map metricToIssue) ∧
    (∀ m, (metricToIssue m).lineNumber = m.startLine ∧
        (metricToIssue m).technicalDebtHours = (m.technicalDebtMinutes : ℚ) / 60) := by
  constructor
  · intro metrics
    induction metrics with
    | nil => rfl
    | cons m ms ih =>
      have step : convertToIssues (m :: ms) =
          if m.severity ≠ "high" ∧ m.severity ≠ "critical" then convertToIssues ms
          else metricToIssue m :: convertToIssues ms := rfl
      by_cases h : m.severity = "high" ∨ m.severity = "critical"
      · have h2 : ¬ (m.severity ≠ "high" ∧ m.severity ≠ "critical") := by tauto
        rw [step, if_neg h2, List.filter_cons, if_pos (by simpa using h), List.map_cons, ih]
      · have h2 : m.severity ≠ "high" ∧ m.severity ≠ "critical" := by tauto
        rw [step, if_pos h2, List.filter_cons, if_neg (by simpa using h), ih]
  · intro m
    exact ⟨rfl, rfl⟩

/-- Claim C5, counterexample.  On a parse failure the Go analyzer's
`AnalyzeFile` returns a wrapped error, not an empty metric list with no
error. -/
theorem claim5_parse_error_counterexample :
    goAnalyzeFile DefaultComplexityThresholds [] "broken.go"
        (.error "expected declaration, found ]") =
      .error "failed to parse Go file: expected declaration, found ]" ∧
    goAnalyzeFile DefaultComplexityThresholds [] "broken.go"
        (.error "expected declaration, found ]") ≠
      .ok [] :=
  ⟨rfl, fun h => Except.noConfusion h⟩

/-- Claim C5, amended.  On parse failure the Go analyzer returns the
error `failed to parse Go file: ...` (and no metrics); the repository
walker treats it as non-fatal: a failing file contributes no metrics
and the metrics collected from the other files are unchanged. -/
theorem claim5_parse_failure_nonfatal :
    (∀ t fileLines fp msg, goAnalyzeFile t fileLines fp (.error msg) =
        .error ("failed to parse Go file: " ++ msg)) ∧
    (∀ pre post msg,
      collectWalkMetrics (pre ++ Except.error msg :: post) =
        collectWalkMetrics (pre ++ post)) := by
  refine ⟨fun t fileLines fp msg => rfl, ?_⟩
  intro pre post msg
  rw [show pre ++ Except.error msg :: post = pre ++ [Except.error msg] ++ post by simp,
    collectWalkMetrics_append, collectWalkMetrics_append, collectWalkMetrics_append]
  simp [collectWalkMetrics]

/-- Claim C6, counterexample.  The JavaScript analyzer's metric for a
branch-free three-line function has `end_line ≥ start_line` but
`lines_of_code = 0`, not `end_line − start_line + 1 = 3`: the metric
literal never sets `LinesOfCode`. -/
theorem claim6_loc_counterexample :
    (jsAnalyzeFunction "index.js" jsAddFn jsZeroCounts).startLine ≤
        (jsAnalyzeFunction "index.js" jsAddFn jsZeroCounts).endLine ∧
      (jsAnalyzeFunction "index.js" jsAddFn jsZeroCounts).linesOfCode = 0 ∧
      (jsAnalyzeFunction "index.js" jsAddFn jsZeroCounts).linesOfCode ≠
        ((jsAnalyzeFunction "index.js" jsAddFn jsZeroCounts).endLine : Int) -
          ((jsAnalyzeFunction "index.js" jsAddFn jsZeroCounts).startLine : Int) + 1 := by
  refine ⟨by decide, by decide, by decide⟩

/-- Claim C6, amended.  Every metric of the Swift pipeline, and every
metric the Go analyzer derives from a function node with ordered source
positions, satisfies `start_line ≤ end_line`, `cyclomatic ≥ 1` and
`lines_of_code = end_line − start_line + 1`; the JavaScript-style
analyzers (JavaScript, TypeScript, Python, Java) still emit
`cyclomatic ≥ 1`, but leave `lines_of_code` at 0, so the equation fails
for them whenever the function starts at line 1 or later. -/
theorem claim6_metric_invariants :
    (∀ fp fn mc,
      (swiftAnalyzeFunction fp fn mc).startLine ≤ (swiftAnalyzeFunction fp fn mc).endLine ∧
      1 ≤ (swiftAnalyzeFunction fp fn mc).cyclomatic ∧
      (swiftAnalyzeFunction fp fn mc).linesOfCode =
        ((swiftAnalyzeFunction fp fn mc).endLine : Int) -
          ((swiftAnalyzeFunction fp fn mc).startLine : Int) + 1) ∧
    (∀ t fileLines fp fn m, goAnalyzeFunction t fileLines fp fn = some m →
      fn.startLine ≤ fn.endLine →
      m.startLine ≤ m.endLine ∧ 1 ≤ m.cyclomatic ∧
        m.linesOfCode = (m.endLine : Int) - (m.startLine : Int) + 1) ∧
    (∀ fp fn w, 1 ≤ (jsAnalyzeFunction fp fn w).cyclomatic ∧
      (jsAnalyzeFunction fp fn w).linesOfCode = 0) := by
  refine ⟨?_, ?_, ?_⟩
  · intro fp fn mc
    refine ⟨Nat.le_add_right _ _, ?_, ?_⟩
    · show (1 : Int) ≤ calculateSwiftCyclomatic mc
      simp only [calculateSwiftCyclomatic]
      omega
    · show ((countNewlines fn.body : Nat) : Int) + 1 =
        ((fn.line + countNewlines fn.body : Nat) : Int) - ((fn.line : Nat) : Int) + 1
      push_cast
      ring
  · intro t fileLines fp fn m h hle
    cases hb : fn.body with
    | none => simp [goAnalyzeFunction, hb] at h
    | some body =>
      simp only [goAnalyzeFunction, hb, Option.some.injEq] at h
      subst h
      refine ⟨hle, ?_, rfl⟩
      show (1 : Int) ≤ (goCalculateCyclomaticComplexity body : Nat)
      simp only [goCalculateCyclomaticComplexity]
      omega
  · intro fp fn w
    refine ⟨?_, rfl⟩
    show (1 : Int) ≤ calculateJSCyclomatic w
    simp only [calculateJSCyclomatic]
    omega

/-- Claim C6, witness at the S3 method declaration. -/
theorem claim6_metric_invariants_witness :
    s3HandleDecl.startLine ≤ s3HandleDecl.endLine ∧
    goAnalyzeFunction DefaultComplexityThresholds s3FileLines "server.go" s3HandleDecl =
      some s3HandleMetric ∧
    (s3HandleMetric.startLine ≤ s3HandleMetric.endLine ∧ 1 ≤ s3HandleMetric.cyclomatic ∧
      s3HandleMetric.linesOfCode =
        (s3HandleMetric.endLine : Int) - (s3HandleMetric.startLine : Int) + 1) :=
  ⟨by decide, by decide,
   claim6_metric_invariants.2.1 DefaultComplexityThresholds s3FileLines "server.go"
     s3HandleDecl s3HandleMetric (by decide) (by decide)⟩

/-- Claim C7, counterexample.  A whitelisted file under `node_modules`
contributes one line and one file to the line counter's totals — the
line counter's walk reaches it even though the complexity walker's walk
prunes it. -/
theorem claim7_pruning_counterexample :
    lineCounterTotals [nmFile] = (1, 1) ∧
    lineCounterWalkReaches nmFile = true ∧
    complexityWalkReaches nmFile = false := by
  refine ⟨by decide, by decide, by decide⟩

/-- Claim C7, amended.  The line counter prunes only `.git`: its totals
are unchanged by dropping the files its walk does not reach, and any
file with a `.git` ancestor contributes nothing; files under the other
five directory names the complexity walker prunes are still counted. -/
theorem claim7_line_counter_prunes_only_git :
    (∀ files, lineCounterTotals files =
        lineCounterTotals (files.filter lineCounterWalkReaches)) ∧
    (∀ f : RepoFile, f.dirs.contains ".git" = true →
      lineCounterLocOf f = 0 ∧ lineCounterFileCountOf f = 0) := by
  constructor
  · intro files
    unfold lineCounterTotals
    rw [sumLoc_filter_reached, sumFileCount_filter_reached]
  · intro f h
    have hmem : ".git" ∈ f.dirs := by simpa using h
    have hreach : lineCounterWalkReaches f = false := by
      simp only [lineCounterWalkReaches, List.all_eq_false]
      exact ⟨".git", hmem, by simp⟩
    exact ⟨lineCounterLocOf_not_reached hreach, lineCounterFileCountOf_not_reached hreach⟩

/-- Claim C7, witness for the amended theorem at a file under `.git`. -/
theorem claim7_line_counter_prunes_only_git_witness :
    dotGitFile.dirs.contains ".git" = true ∧
    lineCounterLocOf dotGitFile = 0 ∧ lineCounterFileCountOf dotGitFile = 0 :=
  ⟨by decide, claim7_line_counter_prunes_only_git.2 dotGitFile (by decide)⟩

set_option maxRecDepth 10000 in
/-- Claim C8, counterexample.  A truncated Swift snippet is 303 bytes
long (300 plus the three-byte ellipsis), above the claimed 300-byte
bound, and a one-line, 400-byte Go function's snippet is emitted whole
at 400 bytes with no ellipsis. -/
theorem claim8_snippet_counterexample :
    (swiftAnalyzeFunction "big.swift" longSwiftFn noMatches).codeSnippet.length = 303 ∧
    (goAnalyzeFunction DefaultComplexityThresholds longLineFile "big.go" longLineDecl).map
        (fun m => m.codeSnippet.length) = some 400 := by
  refine ⟨by decide, by decide⟩

/-- Claim C8, amended.  A pattern-analyzer snippet is
`truncateSnippet(body, 300)`: the body unchanged when it is at most 300
bytes, else its first 300 bytes followed by `"..."` (at most 303 bytes
in all); the Go analyzer instead emits the function's source lines,
truncated to the first 20 with a `"... (truncated)"` marker line, with
no byte bound. -/
theorem claim8_snippet_rules :
    (∀ fp fn mc, (swiftAnalyzeFunction fp fn mc).codeSnippet = truncateSnippet fn.body 300) ∧
    (∀ (code : List Char) maxLen, truncateSnippet code maxLen =
        code.take maxLen ++ (if code.length ≤ maxLen then [] else ['.', '.', '.'])) ∧
    (∀ (code : List Char) maxLen, (truncateSnippet code maxLen).length ≤ maxLen + 3) ∧
    (∀ t fileLines fp fn m, goAnalyzeFunction t fileLines fp fn = some m →
      m.codeSnippet = goExtractCodeSnippet fileLines fn.startLine fn.endLine) := by
  refine ⟨fun fp fn mc => rfl, ?_, ?_, ?_⟩
  · intro code maxLen
    unfold truncateSnippet
    by_cases h : code.length ≤ maxLen
    · simp [h, List.take_of_length_le h]
    · simp [h]
  · intro code maxLen
    unfold truncateSnippet
    by_cases h : code.length ≤ maxLen
    · simp only [if_pos h]
      omega
    · simp only [if_neg h, List.length_append, List.length_take, List.length_cons,
        List.length_nil]
      omega
  · intro t fileLines fp fn m h
    cases hb : fn.body with
    | none => simp [goAnalyzeFunction, hb] at h
    | some body =>
      simp only [goAnalyzeFunction, hb, Option.some.injEq] at h
      subst h
      rfl

set_option maxRecDepth 10000 in
/-- Claim C8, witness for the amended theorem at `longLineDecl`. -/
theorem claim8_snippet_rules_witness :
    goAnalyzeFunction DefaultComplexityThresholds longLineFile "big.go" longLineDecl =
      some longLineMetric ∧
    longLineMetric.codeSnippet =
      goExtractCodeSnippet longLineFile longLineDecl.startLine longLineDecl.endLine :=
  ⟨by decide,
   claim8_snippet_rules.2.2.2 DefaultComplexityThresholds longLineFile "big.go"
     longLineDecl longLineMetric (by decide)⟩

/-- Claim C9: on the file whose only declaration is
`func (s *Server) Handle(req *Request) error` with body
`if req == nil { return nil }; return nil`, the Go analyzer returns
exactly one metric, named `(*Server).Handle`, with cyclomatic
complexity 2 and parameter count 1. -/
theorem claim9_s3_go_method :
    (goAnalyzeFile DefaultComplexityThresholds s3FileLines "server.go"
        (.ok { decls := [s3HandleDecl] })).map
        (List.map fun m => (m.functionName, m.cyclomatic, m.parameterCount)) =
      .ok [("(*Server).Handle", 2, 1)] := by
  rfl

/-- Claim C10: issues whose severity string is outside the five ranked
values are invisible to the quality gate — dropping them never changes
`shouldFail`, at any threshold. -/
theorem claim10_gate_ignores_unknown_severities :
    ∀ (issues : List TechnicalDebtIssue) (threshold : String),
      shouldFail (issues.filter fun i => (severityRank i.severity).isSome) threshold =
        shouldFail issues threshold := by
  intro issues threshold
  by_cases h : threshold = "none"
  · simp [shouldFail, h]
  · simp only [shouldFail, if_neg h]
    induction issues with
    | nil => rfl
    | cons i is ih =>
      cases hsr : severityRank i.severity with
      | none => simp [List.filter_cons, hsr, List.any_cons, ih]
      | some v => simp [List.filter_cons, hsr, List.any_cons, ih]

end DebtDrone
